import Mathlib

/-!
Shallow embedding of the TerraNurture ESP32 irrigation controller
(src/TerraNurture_Irrigation_System.ino).  Floating point values are
modelled as exact rationals; machine integers as Int/Nat (all values
involved are far from any overflow boundary).
-/

/-- Mirrors the `SystemConfig` struct (lines 63-70) and its default
initialisation (lines 75-82). -/
structure SystemConfig where
  dry_threshold : ℚ
  expected_value : ℚ
  max_retries : Nat
  sampling_interval : Nat
  adc_dry : Int
  adc_wet : Int
deriving DecidableEq, Repr

/-- Default configuration from the `#define` block (lines 23-28). -/
def defaultConfig : SystemConfig :=
  { dry_threshold := 45, expected_value := 60, max_retries := 3,
    sampling_interval := 3000, adc_dry := 4095, adc_wet := 1500 }

/-- Mirrors the `SensorReading` struct (lines 49-54). -/
structure SensorReading where
  moisture : ℚ
  timestamp : Nat
  valid : Bool
  raw_adc : Int
deriving DecidableEq, Repr

/-- Mirrors the `PumpState` struct (lines 56-61). -/
structure PumpState where
  pump_active : Bool
  retry_count : Nat
  status : String
  last_change : Nat
deriving DecidableEq, Repr

/-- Initial pump state `{false, 0, "IDLE", 0}` (line 74). -/
def pump_state_init : PumpState :=
  { pump_active := false, retry_count := 0, status := "IDLE", last_change := 0 }

/-- Mirrors the `LogEntry` struct (lines 41-47). -/
structure LogEntry where
  timestamp : Nat
  raw_adc : Int
  percentage : ℚ
  event : String
  details : String
deriving DecidableEq, Repr

/-- Arduino `constrain(amt, low, high)`: clamp `amt` into `[low, high]`. -/
def constrain (amt low high : ℚ) : ℚ :=
  if amt < low then low else if amt > high then high else amt

/-- `map_adc_to_percentage` (lines 106-119): converts a raw ADC sample to a
moisture percentage using the configured dry/wet calibration references. -/
def map_adc_to_percentage (cfg : SystemConfig) (raw_adc : Int) : ℚ :=
  if raw_adc < 0 ∨ raw_adc > 4095 then 0
  else if cfg.adc_dry ≤ cfg.adc_wet then 0
  else if raw_adc ≤ cfg.adc_wet then 100
  else if raw_adc ≥ cfg.adc_dry then 0
  else
    constrain
      (100 * (1 - ((raw_adc - cfg.adc_wet : Int) : ℚ) / ((cfg.adc_dry - cfg.adc_wet : Int) : ℚ)))
      0 100

theorem constrain_mem (x lo hi : ℚ) (h : lo ≤ hi) :
    lo ≤ constrain x lo hi ∧ constrain x lo hi ≤ hi := by
  unfold constrain
  split_ifs <;> constructor <;> linarith

theorem constrain_mono (x y lo hi : ℚ) (hlohi : lo ≤ hi) (hxy : x ≤ y) :
    constrain x lo hi ≤ constrain y lo hi := by
  unfold constrain
  split_ifs <;> linarith

theorem map_range (cfg : SystemConfig) (raw : Int) :
    0 ≤ map_adc_to_percentage cfg raw ∧ map_adc_to_percentage cfg raw ≤ 100 := by
  unfold map_adc_to_percentage
  split_ifs with h1 h2 h3 h4
  · exact ⟨le_refl 0, by norm_num⟩
  · exact ⟨le_refl 0, by norm_num⟩
  · exact ⟨by norm_num, le_refl 100⟩
  · exact ⟨le_refl 0, by norm_num⟩
  · exact constrain_mem _ 0 100 (by norm_num)

theorem map_sat_wet (cfg : SystemConfig) (raw : Int) (h0 : 0 ≤ raw) (h1 : raw ≤ 4095)
    (hcal : cfg.adc_wet < cfg.adc_dry) (h : raw ≤ cfg.adc_wet) :
    map_adc_to_percentage cfg raw = 100 := by
  unfold map_adc_to_percentage
  rw [if_neg (by omega), if_neg (by omega), if_pos h]

theorem map_sat_dry (cfg : SystemConfig) (raw : Int) (h0 : 0 ≤ raw) (h1 : raw ≤ 4095)
    (hcal : cfg.adc_wet < cfg.adc_dry) (h : cfg.adc_dry ≤ raw) :
    map_adc_to_percentage cfg raw = 0 := by
  unfold map_adc_to_percentage
  rw [if_neg (by omega), if_neg (by omega), if_neg (by omega), if_pos h]

theorem map_interp (cfg : SystemConfig) (raw : Int) (h0 : 0 ≤ raw) (h1 : raw ≤ 4095)
    (hcal : cfg.adc_wet < cfg.adc_dry) (hw : cfg.adc_wet < raw) (hd : raw < cfg.adc_dry) :
    map_adc_to_percentage cfg raw =
      constrain
        (100 * (1 - ((raw - cfg.adc_wet : Int) : ℚ) / ((cfg.adc_dry - cfg.adc_wet : Int) : ℚ)))
        0 100 := by
  unfold map_adc_to_percentage
  rw [if_neg (by omega), if_neg (by omega), if_neg (by omega), if_neg (by omega)]

theorem map_mono (cfg : SystemConfig) (r1 r2 : Int) (h0 : 0 ≤ r1) (h12 : r1 ≤ r2)
    (h4095 : r2 ≤ 4095) (hw : cfg.adc_wet ≤ r1) (hd : r2 ≤ cfg.adc_dry)
    (hcal : cfg.adc_wet < cfg.adc_dry) :
    map_adc_to_percentage cfg r2 ≤ map_adc_to_percentage cfg r1 := by
  rcases le_or_lt r1 cfg.adc_wet with h | h
  · rw [map_sat_wet cfg r1 h0 (by omega) hcal h]
    exact (map_range cfg r2).2
  rcases le_or_lt cfg.adc_dry r2 with h2 | h2
  · rw [map_sat_dry cfg r2 (by omega) h4095 hcal h2]
    exact (map_range cfg r1).1
  · rw [map_interp cfg r1 h0 (by omega) hcal h (by omega),
        map_interp cfg r2 (by omega) h4095 hcal (by omega) h2]
    apply constrain_mono _ _ _ _ (by norm_num)
    have hdpos : (0 : ℚ) < ((cfg.adc_dry - cfg.adc_wet : Int) : ℚ) := by
      exact_mod_cast Int.sub_pos.mpr hcal
    have hnum : ((r1 - cfg.adc_wet : Int) : ℚ) ≤ ((r2 - cfg.adc_wet : Int) : ℚ) := by
      exact_mod_cast Int.sub_le_sub_right h12 _
    have hdiv := (div_le_div_iff_of_pos_right hdpos).mpr hnum
    linarith

/-- C1: for every raw in [0,4095] and calibration with dryRef > wetRef, the
calibration mapper returns a value in [0,100]; it returns 100 whenever
raw ≤ wetRef (so in particular at raw = wetRef), 0 whenever raw ≥ dryRef
(in particular at raw = dryRef), is monotonically non-increasing in raw on
[wetRef, dryRef], and strictly between the references it equals the linear
interpolation 100 * (1 - (raw - wetRef) / (dryRef - wetRef)) clamped to
[0,100]. -/
theorem C1_calibration_mapper (cfg : SystemConfig) (raw : Int)
    (h0 : 0 ≤ raw) (h1 : raw ≤ 4095) (hcal : cfg.adc_wet < cfg.adc_dry) :
    (0 ≤ map_adc_to_percentage cfg raw ∧ map_adc_to_percentage cfg raw ≤ 100)
    ∧ (raw ≤ cfg.adc_wet → map_adc_to_percentage cfg raw = 100)
    ∧ (cfg.adc_dry ≤ raw → map_adc_to_percentage cfg raw = 0)
    ∧ (∀ r2 : Int, raw ≤ r2 → r2 ≤ 4095 → cfg.adc_wet ≤ raw → r2 ≤ cfg.adc_dry →
        map_adc_to_percentage cfg r2 ≤ map_adc_to_percentage cfg raw)
    ∧ (cfg.adc_wet < raw → raw < cfg.adc_dry →
        map_adc_to_percentage cfg raw =
          constrain
            (100 * (1 - ((raw - cfg.adc_wet : Int) : ℚ) /
              ((cfg.adc_dry - cfg.adc_wet : Int) : ℚ)))
            0 100) := by
  refine ⟨map_range cfg raw, ?_, ?_, ?_, ?_⟩
  · exact map_sat_wet cfg raw h0 h1 hcal
  · exact map_sat_dry cfg raw h0 h1 hcal
  · intro r2 h12 h4095 hw hd
    exact map_mono cfg raw r2 h0 h12 h4095 hw hd hcal
  · exact map_interp cfg raw h0 h1 hcal

/-- Witness for C1: evaluated at the default calibration (dry 4095, wet 1500)
and raw = 1500 (the wet reference), where the mapper returns 100. -/
theorem C1_calibration_mapper_witness :
    map_adc_to_percentage defaultConfig 1500 = 100 :=
  (C1_calibration_mapper defaultConfig 1500 (by norm_num)
      (by norm_num) (by norm_num [defaultConfig])).2.1 (by norm_num [defaultConfig])

/-- C6: the calibration mapper is total and fails safe: any raw outside
[0,4095] yields 0, and any calibration with dryRef ≤ wetRef yields 0 for
every raw, so the interpolation's division is never reached with a zero or
negative denominator. -/
theorem C6_fail_safe (cfg : SystemConfig) (raw : Int) :
    ((raw < 0 ∨ raw > 4095) → map_adc_to_percentage cfg raw = 0)
    ∧ (cfg.adc_dry ≤ cfg.adc_wet → map_adc_to_percentage cfg raw = 0) := by
  constructor
  · intro h
    unfold map_adc_to_percentage
    rw [if_pos h]
  · intro h
    unfold map_adc_to_percentage
    split_ifs <;> rfl

/-- Witness for C6: raw = 5000 is out of range and yields 0; with the
inverted calibration dry 1000 ≤ wet 3000 every in-range raw also yields 0. -/
theorem C6_fail_safe_witness :
    map_adc_to_percentage defaultConfig 5000 = 0
    ∧ map_adc_to_percentage
        { defaultConfig with adc_dry := 1000, adc_wet := 3000 } 2000 = 0 :=
  ⟨(C6_fail_safe defaultConfig 5000).1 (by norm_num),
   (C6_fail_safe { defaultConfig with adc_dry := 1000, adc_wet := 3000 } 2000).2
     (by norm_num)⟩

/-- Connected-sensor classification from sensor_task (line 320):
`raw_adc > 100 && raw_adc < 4000`. -/
def sensor_connected (raw_adc : Int) : Bool :=
  decide (raw_adc > 100) && decide (raw_adc < 4000)

/-- The SensorReading written by one sensor_task cycle under the shared-state
guard (lines 324-335): all four fields are overwritten; moisture and valid
depend on the connected classification. -/
def sensor_cycle (cfg : SystemConfig) (raw_adc : Int) (now : Nat) : SensorReading :=
  let percentage := map_adc_to_percentage cfg raw_adc
  if sensor_connected raw_adc then
    { moisture := percentage, timestamp := now, valid := true, raw_adc := raw_adc }
  else
    { moisture := 0, timestamp := now, valid := false, raw_adc := raw_adc }

/-- Bounded log queue capacity `LOG_QUEUE_SIZE` (line 34). -/
def LOG_QUEUE_SIZE : Nat := 50

/-- `xQueueSend(log_queue, &entry, 0)`: non-blocking bounded FIFO enqueue;
returns the new queue and whether the entry was accepted.  A full queue
leaves the queue unchanged and reports failure instead of waiting. -/
def queue_send_log (q : List LogEntry) (e : LogEntry) : List LogEntry × Bool :=
  if q.length < LOG_QUEUE_SIZE then (q ++ [e], true) else (q, false)

/-- The SENSOR_READ LogEntry built by sensor_task (lines 338-343). -/
def sensorLogEntry (raw_adc : Int) (percentage : ℚ) (now : Nat)
    (connected : Bool) : LogEntry :=
  { timestamp := now, raw_adc := raw_adc, percentage := percentage,
    event := "SENSOR_READ",
    details := if connected then "OK" else "DISCONNECTED" }

/-- One full sensor_task cycle (lines 316-347): write the shared reading,
then enqueue the SENSOR_READ event non-blocking (result discarded, line 345). -/
def sensor_cycle_full (cfg : SystemConfig) (raw_adc : Int) (now : Nat)
    (logq : List LogEntry) : SensorReading × List LogEntry :=
  let connected := sensor_connected raw_adc
  let percentage := map_adc_to_percentage cfg raw_adc
  (sensor_cycle cfg raw_adc now,
   (queue_send_log logq (sensorLogEntry raw_adc percentage now connected)).1)

/-- C5: every sensor cycle stores a reading with valid equal to the open-band
connected check raw ∈ (100, 4000) and moisture equal to the mapped percentage
when connected and 0 otherwise; concretely, raw 4095 with calibration
dry 4095 / wet 1500 stores valid = false and moisture = 0, while raw 1500
stores valid = true and moisture = 100. -/
theorem C5_sensor_cycle (cfg : SystemConfig) (raw : Int) (now : Nat) :
    ((sensor_cycle cfg raw now).valid = sensor_connected raw)
    ∧ ((sensor_cycle cfg raw now).moisture =
        if sensor_connected raw then map_adc_to_percentage cfg raw else 0)
    ∧ ((sensor_cycle defaultConfig 4095 now).valid = false
        ∧ (sensor_cycle defaultConfig 4095 now).moisture = 0)
    ∧ ((sensor_cycle defaultConfig 1500 now).valid = true
        ∧ (sensor_cycle defaultConfig 1500 now).moisture = 100) := by
  refine ⟨?_, ?_, ⟨?_, ?_⟩, ⟨?_, ?_⟩⟩
  · unfold sensor_cycle
    split_ifs with h <;> simp [h]
  · unfold sensor_cycle
    split_ifs with h <;> simp [h]
  · simp [sensor_cycle, sensor_connected]
  · simp [sensor_cycle, sensor_connected]
  · simp [sensor_cycle, sensor_connected]
  · simp [sensor_cycle, sensor_connected]
    rw [map_sat_wet defaultConfig 1500 (by norm_num) (by norm_num)
        (by norm_num [defaultConfig]) (by norm_num [defaultConfig])]

/-- C8: the log enqueue used by producers is non-blocking: with a full queue
the entry is silently dropped (queue unchanged, failure reported) and the
producing sensor cycle still writes exactly the same SensorReading it would
write with any other queue, so sampling never stalls on the log queue. -/
theorem C8_nonblocking_log_enqueue (q : List LogEntry) (e : LogEntry)
    (cfg : SystemConfig) (raw : Int) (now : Nat) :
    (LOG_QUEUE_SIZE ≤ q.length → queue_send_log q e = (q, false))
    ∧ (sensor_cycle_full cfg raw now q).1 = sensor_cycle cfg raw now := by
  constructor
  · intro h
    unfold queue_send_log
    rw [if_neg (by omega)]
  · rfl

/-- Witness for C8: a queue of 50 entries is full; the enqueue drops the
entry and the sensor cycle's stored reading is unaffected. -/
theorem C8_nonblocking_log_enqueue_witness :
    queue_send_log
        (List.replicate 50 (sensorLogEntry 0 0 0 false))
        (sensorLogEntry 1 1 1 true)
      = (List.replicate 50 (sensorLogEntry 0 0 0 false), false)
    ∧ (sensor_cycle_full defaultConfig 2000 7
        (List.replicate 50 (sensorLogEntry 0 0 0 false))).1 =
        sensor_cycle defaultConfig 2000 7 := by
  refine ⟨?_, ?_⟩
  · exact (C8_nonblocking_log_enqueue
      (List.replicate 50 (sensorLogEntry 0 0 0 false))
      (sensorLogEntry 1 1 1 true) defaultConfig 2000 7).1
      (by simp [LOG_QUEUE_SIZE])
  · exact (C8_nonblocking_log_enqueue
      (List.replicate 50 (sensorLogEntry 0 0 0 false))
      (sensorLogEntry 1 1 1 true) defaultConfig 2000 7).2

/-- Backoff computation from wifi_task (line 844):
`int delay_ms = min(1000 * (1 << min(retries, 6)), 30000)`. -/
def backoff_delay (retries : Nat) : Nat :=
  min (1000 * (1 <<< min retries 6)) 30000

/-- Delays taken by `n` consecutive disconnected wifi_task cycles starting
from retry counter `r`: each cycle first increments `retries` (line 843) and
then sleeps for `backoff_delay retries` (lines 844-846). -/
def wifi_backoff_trace (r : Nat) : Nat → List Nat
  | 0 => []
  | Nat.succ k => backoff_delay (r + 1) :: wifi_backoff_trace (r + 1) k

theorem wifi_backoff_trace_get (n : Nat) : ∀ r k, k < n →
    (wifi_backoff_trace r n)[k]? = some (backoff_delay (r + k + 1)) := by
  induction n with
  | zero => intro r k h; omega
  | succ m ih =>
    intro r k h
    cases k with
    | zero => simp [wifi_backoff_trace]
    | succ j =>
      simp only [wifi_backoff_trace, List.getElem?_cons_succ]
      rw [ih (r + 1) j (by omega)]
      have harith : r + 1 + j + 1 = r + (j + 1) + 1 := by omega
      rw [harith]

theorem backoff_delay_ceiling (r : Nat) (h : 5 ≤ r) : backoff_delay r = 30000 := by
  unfold backoff_delay
  have h5 : 5 ≤ min r 6 := le_min h (by omega)
  have hpow : 2 ^ 5 ≤ 2 ^ min r 6 := Nat.pow_le_pow_right (by norm_num) h5
  rw [Nat.shiftLeft_eq, one_mul]
  have : 32000 ≤ 1000 * 2 ^ min r 6 := by
    calc 32000 = 1000 * 2 ^ 5 := by norm_num
    _ ≤ 1000 * 2 ^ min r 6 := Nat.mul_le_mul_left 1000 hpow
  omega

/-- C3 counterexample: in a run of seven consecutive disconnect cycles the
code's backoff delays are 2000, 4000, 8000, 16000, 30000, 30000, 30000 —
not 1000, 2000, 4000, 8000, 16000, 30000, 30000 as claimed: already for
retryCount = 1 the delay is 1000 * (1 << 1) = 2000 ms, not 1000 ms. -/
theorem C3_backoff_sequence_counterexample :
    wifi_backoff_trace 0 7 = [2000, 4000, 8000, 16000, 30000, 30000, 30000]
    ∧ wifi_backoff_trace 0 7 ≠ [1000, 2000, 4000, 8000, 16000, 30000, 30000]
    ∧ backoff_delay 1 = 2000 := by
  refine ⟨by decide, by decide, by decide⟩

/-- C3 amended: a run of consecutive disconnect cycles produces backoff
delays 2000, 4000, 8000, 16000, 30000 (32000 capped), 30000, ... ms for
retryCount = 1, 2, 3, 4, 5, 6, ..., the delay staying at the 30000 ms cap
from retryCount = 5 onwards. -/
theorem C3_backoff_sequence (n k : Nat) (hk : k < n) :
    wifi_backoff_trace 0 7 = [2000, 4000, 8000, 16000, 30000, 30000, 30000]
    ∧ (4 ≤ k → (wifi_backoff_trace 0 n)[k]? = some 30000) := by
  refine ⟨by decide, fun h4 => ?_⟩
  rw [wifi_backoff_trace_get n 0 k hk, backoff_delay_ceiling (0 + k + 1) (by omega)]

/-- Witness for C3 amended: the sixth delay (retryCount = 6) of a ten-cycle
run is 30000 ms. -/
theorem C3_backoff_sequence_witness :
    (wifi_backoff_trace 0 10)[5]? = some 30000 :=
  (C3_backoff_sequence 10 5 (by norm_num)).2 (by norm_num)

/-- C4: for every position k of a consecutive-disconnect run (retryCount =
k + 1 ≥ 1), the backoff delay taken equals
min(1000 * 2^min(retryCount, 6), 30000) milliseconds. -/
theorem C4_backoff_formula (n k : Nat) (hk : k < n) :
    (wifi_backoff_trace 0 n)[k]? = some (min (1000 * 2 ^ min (k + 1) 6) 30000) := by
  rw [wifi_backoff_trace_get n 0 k hk]
  unfold backoff_delay
  rw [Nat.shiftLeft_eq, one_mul, Nat.zero_add]

/-- Witness for C4: the fifth delay (retryCount = 5) of a nine-cycle run is
min(1000 * 2^5, 30000) = 30000 ms. -/
theorem C4_backoff_formula_witness :
    (wifi_backoff_trace 0 9)[4]? = some (min (1000 * 2 ^ min 5 6) 30000) :=
  C4_backoff_formula 9 4 (by norm_num)

/-- Bounded command queue capacity: `xQueueCreate(5, sizeof(bool))`
(line 878). -/
def PUMP_CMD_QUEUE_SIZE : Nat := 5

/-- `xQueueSend(pump_command_queue, &command, 0)`: non-blocking bounded FIFO
enqueue of a pump command; a full queue drops the command and reports
failure instead of waiting. -/
def queue_send_cmd (q : List Bool) (c : Bool) : List Bool × Bool :=
  if q.length < PUMP_CMD_QUEUE_SIZE then (q ++ [c], true) else (q, false)

/-- A log emission recorded by pump_task, by event tag and time. -/
structure PumpEvt where
  event : String
  time : Nat
deriving DecidableEq, Repr

/-- State of the actuator-controller loop: the pending command queue, the
shared PumpState, the relay drive level, the current time in ms, and the
events emitted so far (in order). -/
structure PumpTaskState where
  cmd_queue : List Bool
  pump : PumpState
  relay_energized : Bool
  now : Nat
  emitted : List PumpEvt
deriving DecidableEq, Repr

/-- Commands sent by other tasks land in the bounded queue one at a time. -/
def enqueue_arrivals (q arrivals : List Bool) : List Bool :=
  arrivals.foldl (fun acc c => (queue_send_cmd acc c).1) q

/-- One iteration of the pump_task loop (lines 355-403).  `arrivals` are the
commands other tasks send to the bounded command queue while this iteration
is in progress (for an activation iteration, during the 5000 ms dwell of
`vTaskDelay(pdMS_TO_TICKS(5000))`, line 379).  A `true` command received
from the queue head makes the task emit PUMP_MANUAL_START, energize the
relay and set the pump state to MANUAL at the current time; after the fixed
5000 ms dwell it de-energizes the relay, returns the state to IDLE and emits
PUMP_MANUAL_STOP; the trailing `vTaskDelay(100)` (line 402) closes every
iteration. -/
def pump_iter (arrivals : List Bool) (s : PumpTaskState) : PumpTaskState :=
  match s.cmd_queue with
  | [] =>
      { s with cmd_queue := enqueue_arrivals s.cmd_queue arrivals,
               now := s.now + 100 }
  | c :: rest =>
      if c then
        { cmd_queue := enqueue_arrivals rest arrivals,
          pump := { pump_active := false, retry_count := s.pump.retry_count,
                    status := "IDLE", last_change := s.now + 5000 },
          relay_energized := false,
          now := s.now + 5100,
          emitted := s.emitted ++
            [{ event := "PUMP_MANUAL_START", time := s.now },
             { event := "PUMP_MANUAL_STOP", time := s.now + 5000 }] }
      else
        { s with cmd_queue := enqueue_arrivals rest arrivals,
                 now := s.now + 100 }

/-- Pump task state at startup: one manual command already queued, pump
idle, relay de-energized, clock at 0, nothing emitted yet. -/
def pumpDemoInit : PumpTaskState :=
  { cmd_queue := [true], pump := pump_state_init, relay_energized := false,
    now := 0, emitted := [] }

/-- C2 counterexample: starting with one queued command, a second command
arrives during the first activation's 5000 ms dwell (strictly before dwell
expiry).  The next loop iteration dequeues it and runs a full second
activation: the trace shows two PUMP_MANUAL_START emissions (at 0 ms and at
5100 ms), so a command received while MANUAL_ACTIVE is queued and executed
as a later activation, not coalesced/ignored. -/
theorem C2_coalescing_counterexample :
    (pump_iter [] (pump_iter [true] pumpDemoInit)).emitted =
      [{ event := "PUMP_MANUAL_START", time := 0 },
       { event := "PUMP_MANUAL_STOP", time := 5000 },
       { event := "PUMP_MANUAL_START", time := 5100 },
       { event := "PUMP_MANUAL_STOP", time := 10100 }]
    ∧ ((pump_iter [] (pump_iter [true] pumpDemoInit)).emitted.filter
        (fun e => e.event == "PUMP_MANUAL_START")).length = 2 := by
  refine ⟨by decide, by decide⟩

/-- C2 amended: an activation command arriving strictly before dwell expiry
of an in-progress activation does not extend or restart that dwell (the stop
occurs exactly 5000 ms after the start, independent of arrivals) and does
not emit a second PUMP_MANUAL_START during that activation; however the
command is retained in the bounded command queue (dropped only when the
queue is full) and is executed as a separate later activation after the
current one completes. -/
theorem C2_coalescing_amended (s : PumpTaskState) (rest arrivals : List Bool)
    (h : s.cmd_queue = true :: rest) :
    (pump_iter arrivals s).emitted =
      s.emitted ++ [{ event := "PUMP_MANUAL_START", time := s.now },
                    { event := "PUMP_MANUAL_STOP", time := s.now + 5000 }]
    ∧ (pump_iter arrivals s).now = s.now + 5100
    ∧ (pump_iter arrivals s).cmd_queue = enqueue_arrivals rest arrivals := by
  unfold pump_iter
  rw [h]
  exact ⟨rfl, rfl, rfl⟩

/-- Witness for C2 amended: one activation in progress, one command arriving
during its dwell; the iteration emits exactly one start/stop pair with the
stop 5000 ms after the start, and the arrival stays queued. -/
theorem C2_coalescing_amended_witness :
    (pump_iter [true] pumpDemoInit).emitted =
      pumpDemoInit.emitted ++
        [{ event := "PUMP_MANUAL_START", time := pumpDemoInit.now },
         { event := "PUMP_MANUAL_STOP", time := pumpDemoInit.now + 5000 }]
    ∧ (pump_iter [true] pumpDemoInit).now = pumpDemoInit.now + 5100
    ∧ (pump_iter [true] pumpDemoInit).cmd_queue = enqueue_arrivals [] [true] :=
  C2_coalescing_amended pumpDemoInit [] [true] rfl

/-- A PumpState transition performed by the Actuator Controller: activation
(lines 372-377) sets `{active := true, status := "MANUAL"}`, deactivation
(lines 383-387) sets `{active := false, status := "IDLE"}`; both stamp
`last_change` with the current time and leave `retry_count` untouched. -/
inductive PumpStep : PumpState → Nat → PumpState → Prop
  | activate (s : PumpState) (now : Nat) :
      PumpStep s now
        { pump_active := true, retry_count := s.retry_count,
          status := "MANUAL", last_change := now }
  | deactivate (s : PumpState) (now : Nat) :
      PumpStep s now
        { pump_active := false, retry_count := s.retry_count,
          status := "IDLE", last_change := now }

/-- States reachable from the initial `{false, 0, "IDLE", 0}` through
Actuator Controller transitions. -/
inductive PumpReachable : PumpState → Prop
  | init : PumpReachable pump_state_init
  | step {s s2 : PumpState} {now : Nat} :
      PumpReachable s → PumpStep s now s2 → PumpReachable s2

/-- C7: every PumpState reachable through the Actuator Controller's
transitions satisfies active = true → status ≠ "IDLE", and every transition
stamps last_change with the current time. -/
theorem C7_pump_invariant :
    (∀ s : PumpState, PumpReachable s → s.pump_active = true → s.status ≠ "IDLE")
    ∧ (∀ (s : PumpState) (now : Nat) (s2 : PumpState),
        PumpStep s now s2 → s2.last_change = now) := by
  constructor
  · intro s hreach
    induction hreach with
    | init => intro h; simp [pump_state_init] at h
    | step _ hstep ih =>
      cases hstep with
      | activate =>
        intro _
        show "MANUAL" ≠ "IDLE"
        decide
      | deactivate => intro h; exact absurd h (by simp)
  · intro s now s2 hstep
    cases hstep <;> rfl

/-- Witness for C7: the state reached by activating at time 7 from the
initial state is reachable, satisfies the invariant, and its last_change
was stamped with 7. -/
theorem C7_pump_invariant_witness :
    ({ pump_active := true, retry_count := pump_state_init.retry_count,
       status := "MANUAL", last_change := 7 } : PumpState).status ≠ "IDLE"
    ∧ ({ pump_active := true, retry_count := pump_state_init.retry_count,
         status := "MANUAL", last_change := 7 } : PumpState).last_change = 7 :=
  ⟨C7_pump_invariant.1 _
      (PumpReachable.step PumpReachable.init (PumpStep.activate pump_state_init 7)) rfl,
   C7_pump_invariant.2 pump_state_init 7 _ (PumpStep.activate pump_state_init 7)⟩

/-- Relay logic level. -/
inductive Level where
  | low
  | high
deriving DecidableEq, Repr

/-- `#define RELAY_ACTIVE_HIGH 0` (line 21). -/
def RELAY_ACTIVE_HIGH : Bool := false

/-- The level that energizes the pump relay:
`RELAY_ACTIVE_HIGH ? HIGH : LOW` (line 371). -/
def energized_level : Level :=
  if RELAY_ACTIVE_HIGH then Level.high else Level.low

/-- The level that de-energizes the pump relay:
`RELAY_ACTIVE_HIGH ? LOW : HIGH` (lines 382 and 871). -/
def de_energized_level : Level :=
  if RELAY_ACTIVE_HIGH then Level.low else Level.high

/-- One observable action of `setup()` (lines 858-898), in program order. -/
inductive SetupStep where
  | serialBegin
  | delayMs (ms : Nat)
  | printBanner
  | pinModeInput (pin : Nat)
  | pinModeOutput (pin : Nat)
  | relayWrite (l : Level)
  | createMutex
  | createQueue (nm : String) (size : Nat)
  | createTask (nm : String)
  | sendStartupLog
deriving DecidableEq, Repr

/-- The ordered actions of `setup()` (lines 858-898): serial init, banner,
pin modes, the relay write `digitalWrite(RELAY_PIN, RELAY_ACTIVE_HIGH ? LOW :
HIGH)` (line 871), mutex and queue creation, the five task creations
(lines 881-885), and the initial SYSTEM_STARTED log enqueue. -/
def setup_steps : List SetupStep :=
  [ SetupStep.serialBegin, SetupStep.delayMs 2000, SetupStep.printBanner,
    SetupStep.pinModeInput 34, SetupStep.pinModeOutput 25,
    SetupStep.relayWrite (if RELAY_ACTIVE_HIGH then Level.low else Level.high),
    SetupStep.createMutex,
    SetupStep.createQueue "log" 50, SetupStep.createQueue "pump_command" 5,
    SetupStep.createTask "WiFi", SetupStep.createTask "Sensor",
    SetupStep.createTask "Pump", SetupStep.createTask "Web",
    SetupStep.createTask "Logger",
    SetupStep.sendStartupLog ]

def isCreateTask : SetupStep → Bool
  | SetupStep.createTask _ => true
  | _ => false

def isRelayWrite : SetupStep → Bool
  | SetupStep.relayWrite _ => true
  | _ => false

/-- C9: the only relay write in setup drives the de-energized level, setup
creates exactly five tasks, and that de-energized relay write occurs
strictly before the first (hence every) task creation — the power-on-safe
default is applied before any task can run, so the pump is never energized
prior to an explicit activation command. -/
theorem C9_relay_safe_default :
    setup_steps.filter isRelayWrite = [SetupStep.relayWrite de_energized_level]
    ∧ (setup_steps.filter isCreateTask).length = 5
    ∧ setup_steps.findIdx isRelayWrite < setup_steps.findIdx isCreateTask := by
  decide

/-- An HTTP response, by status code and the `status` field of its JSON
body. -/
structure HttpResponse where
  code : Nat
  status : String
deriving DecidableEq, Repr

/-- `handleManualPump` (lines 463-474): enqueue `true` onto the bounded pump
command queue with `xQueueSend(..., 0)`, ignoring the result, then respond
200 with body status "manual_pump_triggered". -/
def handleManualPump (q : List Bool) : List Bool × HttpResponse :=
  ((queue_send_cmd q true).1,
   { code := 200, status := "manual_pump_triggered" })

/-- C10: every POST to /api/pump/manual gets the same 200
"manual_pump_triggered" response regardless of the enqueue outcome; when the
command queue is already full the command is silently dropped (queue
unchanged) yet the caller still receives the success response. -/
theorem C10_manual_pump_unconditional (q : List Bool) :
    (handleManualPump q).2 = { code := 200, status := "manual_pump_triggered" }
    ∧ (PUMP_CMD_QUEUE_SIZE ≤ q.length → (handleManualPump q).1 = q) := by
  refine ⟨rfl, fun h => ?_⟩
  unfold handleManualPump queue_send_cmd
  rw [if_neg (by omega)]

/-- Witness for C10: with the command queue full (five pending commands),
the handler leaves the queue unchanged and still responds 200
"manual_pump_triggered". -/
theorem C10_manual_pump_unconditional_witness :
    (handleManualPump (List.replicate 5 true)).2 =
      { code := 200, status := "manual_pump_triggered" }
    ∧ (handleManualPump (List.replicate 5 true)).1 = List.replicate 5 true :=
  ⟨(C10_manual_pump_unconditional (List.replicate 5 true)).1,
   (C10_manual_pump_unconditional (List.replicate 5 true)).2
     (by simp [PUMP_CMD_QUEUE_SIZE])⟩
